import Mathlib

/-!
Verification development for the pyradi Planck-law module (src/ryplanck.py)
and the chromaticity module (src/chroma.py).

The numeric model is a shallow embedding over the real numbers:
python/numpy double values are modelled as elements of `ℝ`, `numpy.exp` as
`Real.exp`, and the scipy CODATA-2010 constant literals as exact decimal
literals.  Arrays are modelled as `List ℝ`; the scalar/vector/matrix return
convention of the module is modelled by the sum type `RyResult`.  For the
parts of the specification that speak about IEEE-754 special values
(infinities and NaN produced by overflow in the derivative path, and by
division by zero in the chromaticity path), a second, explicitly
floating-point-flavoured model `FP` is used: exact real arithmetic extended
with overflow to infinity beyond the largest double, and with IEEE special
value propagation rules.
-/

noncomputable section

namespace Pyradi

/-! ## Physical constants (class PlanckConstants, src/ryplanck.py lines 85-123).

`hconst`, `cconst`, `kconst` are the scipy.constants CODATA 2010 values of the
Planck constant [J s], the speed of light [m/s] and the Boltzmann constant
[J/K]; `sigmaeLit` is scipy's `const.sigma` literal.  -/

/-- CODATA 2010 Planck constant h, the value of scipy `const.h`. -/
def hconst : ℝ := 6.62606957e-34

/-- Speed of light c, the value of scipy `const.c`. -/
def cconst : ℝ := 299792458

/-- CODATA 2010 Boltzmann constant k, the value of scipy `const.k`. -/
def kconst : ℝ := 1.3806488e-23

/-- Overflow guard threshold for `numpy.exp` (src/ryplanck.py line 69). -/
def explimit : ℝ := 709.7

/-- First radiation constant, wavelength in m (line 93): `2 pi h c c`. -/
def c1em : ℝ := 2 * Real.pi * hconst * cconst * cconst

/-- First radiation constant, radiant, wavelength in micrometre (line 94). -/
def c1el : ℝ := c1em * (1.0e6 : ℝ) ^ (4 : ℕ)

/-- First radiation constant, radiant, wavenumber in 1/cm (line 95). -/
def c1en : ℝ := c1em * (100 : ℝ) ^ (3 : ℕ) * 100

/-- First radiation constant, radiant, frequency in Hz (line 96). -/
def c1ef : ℝ := 2 * Real.pi * hconst / (cconst * cconst)

/-- First radiation constant, photon rate, wavelength in m (line 98). -/
def c1qm : ℝ := 2 * Real.pi * cconst

/-- First radiation constant, photon rate, wavelength in micrometre (line 99). -/
def c1ql : ℝ := c1qm * (1.0e6 : ℝ) ^ (3 : ℕ)

/-- First radiation constant, photon rate, wavenumber in 1/cm (line 100). -/
def c1qn : ℝ := c1qm * (100 : ℝ) ^ (2 : ℕ) * 100

/-- First radiation constant, photon rate, frequency in Hz (line 101, named c1nf in the code). -/
def c1nf : ℝ := 2 * Real.pi / (cconst * cconst)

/-- Second radiation constant, wavelength in m (line 103): `h c / k`. -/
def c2m : ℝ := hconst * cconst / kconst

/-- Second radiation constant, wavelength in micrometre (line 104). -/
def c2l : ℝ := c2m * 1.0e6

/-- Second radiation constant, wavenumber in 1/cm (line 105). -/
def c2n : ℝ := c2m * 1.0e2

/-- Second radiation constant, frequency in Hz (line 106): `h / k`. -/
def c2f : ℝ := hconst / kconst

/-- Radiant Stefan-Boltzmann constant (line 108): the code assigns the scipy
built-in literal `const.sigma`, it does not evaluate a formula. -/
def sigmae : ℝ := 5.670373e-8

/-- Riemann zeta(3) literal stored by the code (line 109). -/
def zeta3 : ℝ := 1.2020569031595942853

/-- Photon-rate Stefan-Boltzmann constant (lines 110-111):
`4 pi zeta3 k^3 / (h^3 c^2)`. -/
def sigmaq : ℝ := 4 * Real.pi * zeta3 * kconst ^ (3 : ℕ) / (hconst ^ (3 : ℕ) * cconst ^ (2 : ℕ))

/-! ## Array results and the shared grid/reshape pipeline.

Every one of the twelve evaluators follows the same pattern
(for example src/ryplanck.py lines 250-277 for planckel):
coerce both inputs with `numpy.array(.., ndmin=1)`, build
`numpy.meshgrid(specIn, tempIn)` and ravel it row-major (so the flat arrays
list, for each temperature in order, all spectral values in order), apply the
element computation to the flat arrays, and finally reshape according to
whether each input had length 1.  `ryFlat` fuses meshgrid+ravel+elementwise
application; `reshapeRows` models `reshape(m, -1)` in the exact-fit case; and
`npT` models the numpy transpose `.T` of a list of equal-length rows. -/

/-- Result of an evaluator: a bare scalar, a rank-1 vector, or a rank-2 array
modelled as a list of rows. -/
inductive RyResult (γ : Type) where
  | scalar (v : γ)
  | vector (l : List γ)
  | matrix (m : List (List γ))

/-- Rank (number of axes) of a result: 0 for a scalar, 1 for a vector,
2 for a matrix. -/
def RyResult.rank {γ : Type} : RyResult γ → ℕ
  | .scalar _ => 0
  | .vector _ => 1
  | .matrix _ => 2

/-- Flattened elementwise evaluation over the raveled meshgrid of
`specIn` and `tempIn`: spectral varies fastest, matching
`numpy.ravel(numpy.meshgrid(specIn, tempIn))`. -/
def ryFlat (elem : ℝ → ℝ → ℝ) (specIn tempIn : List ℝ) : List ℝ :=
  tempIn.flatMap fun t => specIn.map fun s => elem s t

/-- Model of `reshape(m, -1)` where the minus-1 axis resolves to `n`:
cut the flat list into `m` consecutive rows of `n` entries. -/
def reshapeRows (m n : ℕ) (l : List ℝ) : List (List ℝ) :=
  match m with
  | 0 => []
  | m' + 1 => l.take n :: reshapeRows m' n (l.drop n)

/-- Model of numpy `.T` on a rank-2 array given as equal-length rows. -/
def npT : List (List ℝ) → List (List ℝ)
  | [] => []
  | [r] => r.map fun a => [a]
  | r :: r2 :: rs => List.zipWith (fun a col => a :: col) r (npT (r2 :: rs))

/-- Shared output-shaping contract of all twelve evaluators
(src/ryplanck.py lines 270-277 and the identical blocks of the other
eleven functions): both inputs length 1 gives a bare scalar; temperature
length 1 gives `reshape(len(specIn),)`, a vector; spectral length 1 gives
`reshape(1, -1)`, a 1-row matrix; otherwise
`reshape(len(tempIn), -1).T`. -/
def ryOutput (elem : ℝ → ℝ → ℝ) (specIn tempIn : List ℝ) : RyResult ℝ :=
  let planckA := ryFlat elem specIn tempIn
  if tempIn.length = 1 ∧ specIn.length = 1 then .scalar planckA.headI
  else if tempIn.length = 1 then .vector planckA
  else if specIn.length = 1 then .matrix (reshapeRows specIn.length tempIn.length planckA)
  else .matrix (npT (reshapeRows tempIn.length specIn.length planckA))

/-! ## The six exitance element computations (src/ryplanck.py lines 187-464).

Each `..Elem` function is the per-element body applied to one
(spectral, temperature) pair of the flat grid.  The guarded exponent
`exP2` replaces an overflowing exponent by the dummy value 1, and the
`numpy.where(exP < explimit, p, 0)` step forces the result to 0 there.
Note: in `planckenElem` the code (line 312) evaluates `numpy.exp` on the
raw exponent `exP`, not on the clamped `exP2` it just computed. -/

/-- Element computation of planckel (lines 263-267). -/
def planckelElem (s t : ℝ) : ℝ :=
  let exP := c2l / (s * t)
  let exP2 := if exP < explimit then exP else 1
  let p := (c1el / (Real.exp exP2 - 1)) / s ^ (5 : ℕ)
  if exP < explimit then p else 0

/-- Element computation of planckef (lines 214-218). -/
def planckefElem (s t : ℝ) : ℝ :=
  let exP := c2f * s / t
  let exP2 := if exP < explimit then exP else 1
  let p := c1ef * s ^ (3 : ℕ) / (Real.exp exP2 - 1)
  if exP < explimit then p else 0

/-- Element computation of plancken (lines 310-314).  The clamped exponent
`exP2` is computed but the code then evaluates `numpy.exp(exP)` on the raw
exponent. -/
def planckenElem (s t : ℝ) : ℝ :=
  let exP := c2n * (s / t)
  let exP2 := if exP < explimit then exP else 1
  let p := c1en * s ^ (3 : ℕ) / (Real.exp exP - 1)
  if exP < explimit then p else 0

/-- Element computation of planckql (lines 402-406). -/
def planckqlElem (s t : ℝ) : ℝ :=
  let exP := c2l / (s * t)
  let exP2 := if exP < explimit then exP else 1
  let p := (c1ql / (Real.exp exP2 - 1)) / s ^ (4 : ℕ)
  if exP < explimit then p else 0

/-- Element computation of planckqf (lines 356-360). -/
def planckqfElem (s t : ℝ) : ℝ :=
  let exP := c2f * s / t
  let exP2 := if exP < explimit then exP else 1
  let p := c1nf * s ^ (2 : ℕ) / (Real.exp exP2 - 1)
  if exP < explimit then p else 0

/-- Element computation of planckqn (lines 448-452). -/
def planckqnElem (s t : ℝ) : ℝ :=
  let exP := c2n * s / t
  let exP2 := if exP < explimit then exP else 1
  let p := c1qn * s ^ (2 : ℕ) / (Real.exp exP2 - 1)
  if exP < explimit then p else 0

/-- Planck radiant exitance in wavelength domain (planckel, lines 236-279). -/
def planckel (wavelength temperature : List ℝ) : RyResult ℝ :=
  ryOutput planckelElem wavelength temperature

/-- Planck radiant exitance in frequency domain (planckef, lines 187-230). -/
def planckef (frequency temperature : List ℝ) : RyResult ℝ :=
  ryOutput planckefElem frequency temperature

/-- Planck radiant exitance in wavenumber domain (plancken, lines 284-326). -/
def plancken (wavenumber temperature : List ℝ) : RyResult ℝ :=
  ryOutput planckenElem wavenumber temperature

/-- Planck photon-rate exitance in wavelength domain (planckql, lines 377-418). -/
def planckql (wavelength temperature : List ℝ) : RyResult ℝ :=
  ryOutput planckqlElem wavelength temperature

/-- Planck photon-rate exitance in frequency domain (planckqf, lines 331-372). -/
def planckqf (frequency temperature : List ℝ) : RyResult ℝ :=
  ryOutput planckqfElem frequency temperature

/-- Planck photon-rate exitance in wavenumber domain (planckqn, lines 423-464). -/
def planckqn (wavenumber temperature : List ℝ) : RyResult ℝ :=
  ryOutput planckqnElem wavenumber temperature

/-! ## The six temperature-derivative element computations
(src/ryplanck.py lines 469-731).

Each derivative function computes, per grid element, the exponent `xx`, the
factor `xx*exp(xx)/(temp*(exp(xx)-1))` and the unguarded exitance expression,
and multiplies them (for the wavelength radiant form the same product is
written in one refactored expression, lines 543-544).  No overflow guard is
applied anywhere on this path. -/

/-- Element computation of dplnckel (lines 539-544). -/
def dplnckelElem (s t : ℝ) : ℝ :=
  let xx := c2l / (s * t)
  (c1el * xx * Real.exp xx / (Real.exp xx - 1)) / (t * s ^ (5 : ℕ) * (Real.exp xx - 1))

/-- Element computation of dplnckef (lines 493-497). -/
def dplnckefElem (s t : ℝ) : ℝ :=
  let xx := c2f * s / t
  let f := xx * Real.exp xx / (t * (Real.exp xx - 1))
  let y := c1ef * s ^ (3 : ℕ) / (Real.exp (c2f * s / t) - 1)
  f * y

/-- Element computation of dplncken (lines 584-588). -/
def dplnckenElem (s t : ℝ) : ℝ :=
  let xx := c2n * s / t
  let f := xx * Real.exp xx / (t * (Real.exp xx - 1))
  let y := c1en * s ^ (3 : ℕ) / (Real.exp (c2n * s / t) - 1)
  f * y

/-- Element computation of dplnckql (lines 672-676). -/
def dplnckqlElem (s t : ℝ) : ℝ :=
  let xx := c2l / (s * t)
  let f := xx * Real.exp xx / (t * (Real.exp xx - 1))
  let y := c1ql / (s ^ (4 : ℕ) * (Real.exp (c2l / (t * s)) - 1))
  f * y

/-- Element computation of dplnckqf (lines 628-632). -/
def dplnckqfElem (s t : ℝ) : ℝ :=
  let xx := c2f * s / t
  let f := xx * Real.exp xx / (t * (Real.exp xx - 1))
  let y := c1nf * s ^ (2 : ℕ) / (Real.exp (c2f * s / t) - 1)
  f * y

/-- Element computation of dplnckqn (lines 715-719). -/
def dplnckqnElem (s t : ℝ) : ℝ :=
  let xx := c2n * s / t
  let f := xx * Real.exp xx / (t * (Real.exp xx - 1))
  let y := c1qn * s ^ (2 : ℕ) / (Real.exp (c2n * s / t) - 1)
  f * y

/-- Temperature derivative of planckel (dplnckel, lines 514-556). -/
def dplnckel (wavelength temperature : List ℝ) : RyResult ℝ :=
  ryOutput dplnckelElem wavelength temperature

/-- Temperature derivative of planckef (dplnckef, lines 469-509). -/
def dplnckef (frequency temperature : List ℝ) : RyResult ℝ :=
  ryOutput dplnckefElem frequency temperature

/-- Temperature derivative of plancken (dplncken, lines 561-600). -/
def dplncken (wavenumber temperature : List ℝ) : RyResult ℝ :=
  ryOutput dplnckenElem wavenumber temperature

/-- Temperature derivative of planckql (dplnckql, lines 649-688). -/
def dplnckql (wavelength temperature : List ℝ) : RyResult ℝ :=
  ryOutput dplnckqlElem wavelength temperature

/-- Temperature derivative of planckqf (dplnckqf, lines 605-644). -/
def dplnckqf (frequency temperature : List ℝ) : RyResult ℝ :=
  ryOutput dplnckqfElem frequency temperature

/-- Temperature derivative of planckqn (dplnckqn, lines 692-731). -/
def dplnckqn (wavenumber temperature : List ℝ) : RyResult ℝ :=
  ryOutput dplnckqnElem wavenumber temperature

/-! ## The argument each exitance evaluator passes to `numpy.exp`.

Every exitance function makes exactly one `numpy.exp` call on its flat grid;
per grid element that call receives one real argument.  Five of the six
functions pass the clamped exponent `exP2`; `plancken` (line 312) passes the
raw exponent `exP`. -/

/-- Argument of the single exp call in planckel (line 265): the clamped `exP2`. -/
def planckelExpArg (s t : ℝ) : ℝ :=
  if c2l / (s * t) < explimit then c2l / (s * t) else 1

/-- Argument of the single exp call in planckef (line 216): the clamped `exP2`. -/
def planckefExpArg (s t : ℝ) : ℝ :=
  if c2f * s / t < explimit then c2f * s / t else 1

/-- Argument of the single exp call in plancken (line 312): the raw `exP`. -/
def planckenExpArg (s t : ℝ) : ℝ := c2n * (s / t)

/-- Argument of the single exp call in planckql (line 404): the clamped `exP2`. -/
def planckqlExpArg (s t : ℝ) : ℝ :=
  if c2l / (s * t) < explimit then c2l / (s * t) else 1

/-- Argument of the single exp call in planckqf (line 358): the clamped `exP2`. -/
def planckqfExpArg (s t : ℝ) : ℝ :=
  if c2f * s / t < explimit then c2f * s / t else 1

/-- Argument of the single exp call in planckqn (line 450): the clamped `exP2`. -/
def planckqnExpArg (s t : ℝ) : ℝ :=
  if c2n * s / t < explimit then c2n * s / t else 1

/-! ## Dispatcher (src/ryplanck.py lines 737-850).

The spectral argument of `planck`/`dplanck` is forwarded unchanged to the
selected evaluator (which coerces it with `ndmin=1`); only the error branch
touches it, through the attribute access `spectral.shape`, which exists for
numpy arrays but raises AttributeError for python scalars (and plain lists).
Selector strings are modelled as lists of characters. -/

/-- Spectral argument of the dispatcher: either a python scalar (no `shape`
attribute) or a numpy rank-1 array. -/
inductive SpecArg where
  | scalar (v : ℝ)
  | arr (l : List ℝ)

/-- Coercion `numpy.array(x, ndmin=1)` applied by every evaluator. -/
def SpecArg.atleast1d : SpecArg → List ℝ
  | .scalar v => [v]
  | .arr l => l

/-- Attribute lookup `x.shape`: defined for arrays, missing for scalars. -/
def SpecArg.shape : SpecArg → Option ℕ
  | .scalar _ => none
  | .arr l => some l.length

/-- Outcome of a dispatcher call: a value, or a raised AttributeError. -/
inductive PyResult (γ : Type) where
  | ok (v : γ)
  | attrError

/-- Selector token for radiant, wavelength. -/
def selEl : List Char := ['e', 'l']

/-- Selector token for radiant, frequency. -/
def selEf : List Char := ['e', 'f']

/-- Selector token for radiant, wavenumber. -/
def selEn : List Char := ['e', 'n']

/-- Selector token for photon rate, wavelength. -/
def selQl : List Char := ['q', 'l']

/-- Selector token for photon rate, frequency. -/
def selQf : List Char := ['q', 'f']

/-- Selector token for photon rate, wavenumber. -/
def selQn : List Char := ['q', 'n']

/-- Dispatch dictionary `plancktype` (lines 767-768), as a partial lookup. -/
def plancktype (ty : List Char) : Option (List ℝ → List ℝ → RyResult ℝ) :=
  if ty = selEl then some planckel
  else if ty = selEf then some planckef
  else if ty = selEn then some plancken
  else if ty = selQl then some planckql
  else if ty = selQf then some planckqf
  else if ty = selQn then some planckqn
  else none

/-- Dispatch dictionary `dplancktype` (lines 769-770), as a partial lookup. -/
def dplancktype (ty : List Char) : Option (List ℝ → List ℝ → RyResult ℝ) :=
  if ty = selEl then some dplnckel
  else if ty = selEf then some dplnckef
  else if ty = selEn then some dplncken
  else if ty = selQl then some dplnckql
  else if ty = selQf then some dplnckqf
  else if ty = selQn then some dplnckqn
  else none

/-- Generic Planck exitance dispatcher (lines 774-808): a known selector
calls the selected evaluator; an unknown selector evaluates
`- numpy.ones(spectral.shape)`, which needs the `shape` attribute. -/
def planck (spectral : SpecArg) (temperature : List ℝ) (ty : List Char) :
    PyResult (RyResult ℝ) :=
  match plancktype ty with
  | some fn => .ok (fn spectral.atleast1d temperature)
  | none =>
    match spectral.shape with
    | some n => .ok (.vector (List.replicate n (-1)))
    | none => .attrError

/-- Generic Planck derivative dispatcher (lines 814-850). -/
def dplanck (spectral : SpecArg) (temperature : List ℝ) (ty : List Char) :
    PyResult (RyResult ℝ) :=
  match dplancktype ty with
  | some fn => .ok (fn spectral.atleast1d temperature)
  | none =>
    match spectral.shape with
    | some n => .ok (.vector (List.replicate n (-1)))
    | none => .attrError

/-- Stefan-Boltzmann wideband exitance (lines 737-761): dictionary lookup on
the quantity selector with default `lambda temperature: -1`. -/
def stefanboltzman (temperature : ℝ) (ty : List Char) : ℝ :=
  if ty = ['e'] then sigmae * temperature ^ (4 : ℕ)
  else if ty = ['q'] then sigmaq * temperature ^ (3 : ℕ)
  else -1

/-! ## Floating-point-flavoured value model.

`FP` is an idealisation of IEEE-754 binary64 used where the specification
speaks about infinities and NaN: finite values carry an exact real (rounding
of finite results is not modelled, and neither is underflow), a finite
arithmetic result whose exact value exceeds the largest double `maxDbl`
overflows to a signed infinity, and the special values propagate through
multiplication, subtraction and division by the IEEE rules (with the sign of
a zero divisor taken positive, as produced by the expressions modelled
here). -/

/-- Largest finite IEEE-754 binary64 value, `(2 - 2^-52) * 2^1023`. -/
def maxDbl : ℝ := 2 ^ (1024 : ℕ) - 2 ^ (971 : ℕ)

/-- Extended value: finite real, signed infinity, or NaN. -/
inductive FP where
  | fin (v : ℝ)
  | pinf
  | ninf
  | nan

/-- Finiteness predicate on extended values. -/
def FP.isFinite : FP → Bool
  | .fin _ => true
  | _ => false

/-- Deliver the exact real result of an operation, overflowing to a signed
infinity beyond the largest double. -/
def roundFP (v : ℝ) : FP :=
  if maxDbl < v then .pinf else if v < -maxDbl then .ninf else .fin v

/-- IEEE-style multiplication on extended values. -/
def FP.mul : FP → FP → FP
  | .nan, _ => .nan
  | _, .nan => .nan
  | .fin a, .fin b => roundFP (a * b)
  | .fin a, .pinf => if 0 < a then .pinf else if a < 0 then .ninf else .nan
  | .fin a, .ninf => if 0 < a then .ninf else if a < 0 then .pinf else .nan
  | .pinf, .fin b => if 0 < b then .pinf else if b < 0 then .ninf else .nan
  | .ninf, .fin b => if 0 < b then .ninf else if b < 0 then .pinf else .nan
  | .pinf, .pinf => .pinf
  | .pinf, .ninf => .ninf
  | .ninf, .pinf => .ninf
  | .ninf, .ninf => .pinf

/-- IEEE-style subtraction on extended values. -/
def FP.sub : FP → FP → FP
  | .nan, _ => .nan
  | _, .nan => .nan
  | .fin a, .fin b => roundFP (a - b)
  | .fin _, .pinf => .ninf
  | .fin _, .ninf => .pinf
  | .pinf, .fin _ => .pinf
  | .ninf, .fin _ => .ninf
  | .pinf, .pinf => .nan
  | .ninf, .ninf => .nan
  | .pinf, .ninf => .pinf
  | .ninf, .pinf => .ninf

/-- IEEE-style division on extended values; a zero divisor carries sign +0. -/
def FP.div : FP → FP → FP
  | .nan, _ => .nan
  | _, .nan => .nan
  | .fin a, .fin b =>
      if b = 0 then (if a = 0 then .nan else if 0 < a then .pinf else .ninf)
      else roundFP (a / b)
  | .fin _, .pinf => .fin 0
  | .fin _, .ninf => .fin 0
  | .pinf, .fin b => if 0 ≤ b then .pinf else .ninf
  | .ninf, .fin b => if 0 ≤ b then .ninf else .pinf
  | .pinf, .pinf => .nan
  | .pinf, .ninf => .nan
  | .ninf, .pinf => .nan
  | .ninf, .ninf => .nan

/-- Model of `numpy.exp` on a finite argument: overflow to +infinity beyond
the largest double. -/
def fexp (x : ℝ) : FP := roundFP (Real.exp x)

/-! ## Derivative element computations in the FP model
(same code lines as the real-valued `dplnck..Elem` functions).

The exponent and the products of pre-exponential finite inputs are carried
as exact reals; every operation involving the exponential value goes through
the FP rules above. -/

/-- FP-model element computation of dplnckel (lines 539-544). -/
def dplnckelFP (s t : ℝ) : FP :=
  let xx := c2l / (s * t)
  let e := fexp xx
  (((FP.fin (c1el * xx)).mul e).div (e.sub (FP.fin 1))).div
    ((FP.fin (t * s ^ (5 : ℕ))).mul (e.sub (FP.fin 1)))

/-- FP-model element computation of dplnckef (lines 493-497). -/
def dplnckefFP (s t : ℝ) : FP :=
  let xx := c2f * s / t
  let e := fexp xx
  let f := ((FP.fin xx).mul e).div ((FP.fin t).mul (e.sub (FP.fin 1)))
  let y := (FP.fin (c1ef * s ^ (3 : ℕ))).div (e.sub (FP.fin 1))
  f.mul y

/-- FP-model element computation of dplncken (lines 584-588). -/
def dplnckenFP (s t : ℝ) : FP :=
  let xx := c2n * s / t
  let e := fexp xx
  let f := ((FP.fin xx).mul e).div ((FP.fin t).mul (e.sub (FP.fin 1)))
  let y := (FP.fin (c1en * s ^ (3 : ℕ))).div (e.sub (FP.fin 1))
  f.mul y

/-- FP-model element computation of dplnckql (lines 672-676). -/
def dplnckqlFP (s t : ℝ) : FP :=
  let xx := c2l / (s * t)
  let e := fexp xx
  let f := ((FP.fin xx).mul e).div ((FP.fin t).mul (e.sub (FP.fin 1)))
  let y := (FP.fin c1ql).div ((FP.fin (s ^ (4 : ℕ))).mul (e.sub (FP.fin 1)))
  f.mul y

/-- FP-model element computation of dplnckqf (lines 628-632). -/
def dplnckqfFP (s t : ℝ) : FP :=
  let xx := c2f * s / t
  let e := fexp xx
  let f := ((FP.fin xx).mul e).div ((FP.fin t).mul (e.sub (FP.fin 1)))
  let y := (FP.fin (c1nf * s ^ (2 : ℕ))).div (e.sub (FP.fin 1))
  f.mul y

/-- FP-model element computation of dplnckqn (lines 715-719). -/
def dplnckqnFP (s t : ℝ) : FP :=
  let xx := c2n * s / t
  let e := fexp xx
  let f := ((FP.fin xx).mul e).div ((FP.fin t).mul (e.sub (FP.fin 1)))
  let y := (FP.fin (c1qn * s ^ (2 : ℕ))).div (e.sub (FP.fin 1))
  f.mul y

/-! ## Chromaticity (src/chroma.py lines 42-75). -/

/-- Composite trapezoidal integral `numpy.trapz(y, x)`:
sum of `(x.succ - x.cur) * (y.cur + y.succ) / 2` over consecutive samples. -/
def trapz : List ℝ → List ℝ → ℝ
  | y1 :: y2 :: ys, x1 :: x2 :: xs => (x2 - x1) * (y1 + y2) / 2 + trapz (y2 :: ys) (x2 :: xs)
  | _, _ => 0

/-- CIE chromaticity coordinates for a spectral radiance
(chromaticityforSpectralL, src/chroma.py lines 42-75): tristimulus integrals
X, Y, Z by trapezoidal integration of the products radiance times curve over
the spectral grid, then the divisions `X/(X+Y+Z)` and `Y/(X+Y+Z)` carried
out in the FP model (they divide by zero when the sum vanishes), with the
raw Y integral as third component. -/
def chromaticityforSpectralL (spectral radiance xbar ybar zbar : List ℝ) :
    FP × FP × FP :=
  let X := trapz (List.zipWith (fun a b => a * b) radiance xbar) spectral
  let Y := trapz (List.zipWith (fun a b => a * b) radiance ybar) spectral
  let Z := trapz (List.zipWith (fun a b => a * b) radiance zbar) spectral
  ((FP.fin X).div (FP.fin (X + Y + Z)), (FP.fin Y).div (FP.fin (X + Y + Z)), FP.fin Y)

/-- Tristimulus integral as the specification words it (spec section 4.6):
the trapezoidal integral over the spectral grid of the pointwise product of
the radiance samples and one tristimulus curve.  This definition follows the
specification text and is compared against the code model
`chromaticityforSpectralL`. -/
def specTristimulus (spectral radiance curve : List ℝ) : ℝ :=
  ∑ i ∈ Finset.range (spectral.length - 1),
    (spectral.getD (i + 1) 0 - spectral.getD i 0) *
      (radiance.getD i 0 * curve.getD i 0 + radiance.getD (i + 1) 0 * curve.getD (i + 1) 0) / 2

/-! ## Helper lemmas. -/

/-- Largest double is positive. -/
lemma maxDbl_pos : (0 : ℝ) < maxDbl := by unfold maxDbl; norm_num

/-- The exponential at the guard threshold already exceeds `2 ^ 1023`. -/
lemma exp_explimit_big : (2 : ℝ) ^ (1023 : ℕ) < Real.exp explimit := by
  have h : (1023 : ℝ) * Real.log 2 < explimit := by
    have h2 := Real.log_two_lt_d9
    unfold explimit
    nlinarith
  have h2 : ((2 : ℝ) ^ (1023 : ℕ)) = Real.exp ((1023 : ℕ) * Real.log 2) := by
    rw [Real.exp_nat_mul, Real.exp_log two_pos]
  rw [h2]
  exact Real.exp_lt_exp.mpr (by exact_mod_cast h)

/-- Any factor of size at least 2 times the exponential of an above-threshold
exponent exceeds the largest double. -/
lemma maxDbl_lt_mul_exp {a x : ℝ} (ha : 2 ≤ a) (hx : explimit ≤ x) :
    maxDbl < a * Real.exp x := by
  have h1 : (2 : ℝ) ^ (1023 : ℕ) < Real.exp x :=
    lt_of_lt_of_le exp_explimit_big (Real.exp_le_exp.mpr hx)
  have h2 : maxDbl < 2 ^ (1024 : ℕ) := by unfold maxDbl; norm_num
  have h3 : (2 : ℝ) ^ (1024 : ℕ) = 2 * 2 ^ (1023 : ℕ) := by ring
  have h4 : (2 : ℝ) * 2 ^ (1023 : ℕ) ≤ a * 2 ^ (1023 : ℕ) :=
    mul_le_mul_of_nonneg_right ha (by positivity)
  have h5 : a * (2 : ℝ) ^ (1023 : ℕ) < a * Real.exp x :=
    mul_lt_mul_of_pos_left h1 (by linarith)
  linarith

/-- Multiplying a finite value of size at least 2 by the exponential of an
above-threshold exponent overflows to +infinity, whether or not the
exponential itself already overflowed. -/
lemma fin_mul_fexp_pinf {a x : ℝ} (ha : 2 ≤ a) (hx : explimit ≤ x) :
    (FP.fin a).mul (fexp x) = FP.pinf := by
  have hapos : 0 < a := by linarith
  unfold fexp roundFP
  rcases le_or_lt (Real.exp x) maxDbl with h | h
  · rw [if_neg (not_lt.mpr h), if_neg (not_lt.mpr (by linarith [Real.exp_pos x, maxDbl_pos]))]
    show roundFP (a * Real.exp x) = FP.pinf
    unfold roundFP
    rw [if_pos (maxDbl_lt_mul_exp ha hx)]
  · rw [if_pos h]
    show (if 0 < a then FP.pinf else if a < 0 then FP.ninf else FP.nan) = FP.pinf
    rw [if_pos hapos]

/-- A non-finite left factor makes any FP product non-finite. -/
lemma mul_not_finite {a : FP} (h : a.isFinite = false) (b : FP) :
    (a.mul b).isFinite = false := by
  cases a with
  | fin v => simp [FP.isFinite] at h
  | pinf => cases b <;> simp only [FP.mul] <;>
      first | rfl | (split <;> first | rfl | (split <;> rfl))
  | ninf => cases b <;> simp only [FP.mul] <;>
      first | rfl | (split <;> first | rfl | (split <;> rfl))
  | nan => cases b <;> rfl

/-- A non-finite dividend makes any FP quotient non-finite. -/
lemma div_not_finite {a : FP} (h : a.isFinite = false) (b : FP) :
    (a.div b).isFinite = false := by
  cases a with
  | fin v => simp [FP.isFinite] at h
  | pinf => cases b <;> simp only [FP.div] <;>
      first | rfl | (split <;> first | rfl | (split <;> rfl))
  | ninf => cases b <;> simp only [FP.div] <;>
      first | rfl | (split <;> first | rfl | (split <;> rfl))
  | nan => cases b <;> rfl

/-- The first radiation constant c1el exceeds 1 (its value is about 3.7e8). -/
lemma one_le_c1el : (1 : ℝ) ≤ c1el := by
  have hpi := Real.pi_gt_three
  unfold c1el c1em hconst cconst
  nlinarith

/-- Guarded elementwise form of planckel. -/
lemma planckelElem_eq (s t : ℝ) :
    planckelElem s t = if explimit ≤ c2l / (s * t) then 0
      else c1el / (s ^ (5 : ℕ) * (Real.exp (c2l / (s * t)) - 1)) := by
  unfold planckelElem
  by_cases h : c2l / (s * t) < explimit
  · simp only [if_pos h, if_neg (not_le.mpr h)]
    rw [div_div]
    ring_nf
  · simp only [if_neg h, if_pos (not_lt.mp h)]

/-- Guarded elementwise form of planckql. -/
lemma planckqlElem_eq (s t : ℝ) :
    planckqlElem s t = if explimit ≤ c2l / (s * t) then 0
      else c1ql / (s ^ (4 : ℕ) * (Real.exp (c2l / (s * t)) - 1)) := by
  unfold planckqlElem
  by_cases h : c2l / (s * t) < explimit
  · simp only [if_pos h, if_neg (not_le.mpr h)]
    rw [div_div]
    ring_nf
  · simp only [if_neg h, if_pos (not_lt.mp h)]

/-- Guarded elementwise form of planckef. -/
lemma planckefElem_eq (s t : ℝ) :
    planckefElem s t = if explimit ≤ c2f * s / t then 0
      else c1ef * s ^ (3 : ℕ) / (Real.exp (c2f * s / t) - 1) := by
  unfold planckefElem
  by_cases h : c2f * s / t < explimit
  · simp only [if_pos h, if_neg (not_le.mpr h)]
  · simp only [if_neg h, if_pos (not_lt.mp h)]

/-- Guarded elementwise form of planckqf. -/
lemma planckqfElem_eq (s t : ℝ) :
    planckqfElem s t = if explimit ≤ c2f * s / t then 0
      else c1nf * s ^ (2 : ℕ) / (Real.exp (c2f * s / t) - 1) := by
  unfold planckqfElem
  by_cases h : c2f * s / t < explimit
  · simp only [if_pos h, if_neg (not_le.mpr h)]
  · simp only [if_neg h, if_pos (not_lt.mp h)]

/-- Guarded elementwise form of plancken. -/
lemma planckenElem_eq (s t : ℝ) :
    planckenElem s t = if explimit ≤ c2n * (s / t) then 0
      else c1en * s ^ (3 : ℕ) / (Real.exp (c2n * (s / t)) - 1) := by
  unfold planckenElem
  by_cases h : c2n * (s / t) < explimit
  · simp only [if_pos h, if_neg (not_le.mpr h)]
  · simp only [if_neg h, if_pos (not_lt.mp h)]

/-- Guarded elementwise form of planckqn. -/
lemma planckqnElem_eq (s t : ℝ) :
    planckqnElem s t = if explimit ≤ c2n * s / t then 0
      else c1qn * s ^ (2 : ℕ) / (Real.exp (c2n * s / t) - 1) := by
  unfold planckqnElem
  by_cases h : c2n * s / t < explimit
  · simp only [if_pos h, if_neg (not_le.mpr h)]
  · simp only [if_neg h, if_pos (not_lt.mp h)]

/-- The refactored dplnckel expression equals factor times unguarded exitance. -/
lemma dplnckelElem_eq (s t : ℝ) :
    dplnckelElem s t
      = (c2l / (s * t) * Real.exp (c2l / (s * t)) / (t * (Real.exp (c2l / (s * t)) - 1)))
        * (c1el / (s ^ (5 : ℕ) * (Real.exp (c2l / (s * t)) - 1))) := by
  unfold dplnckelElem
  simp only [div_eq_mul_inv, mul_inv]
  ring

/-- The dplnckql product in factor-times-eta form with both exponents written
over `s * t`. -/
lemma dplnckqlElem_eq (s t : ℝ) :
    dplnckqlElem s t
      = (c2l / (s * t) * Real.exp (c2l / (s * t)) / (t * (Real.exp (c2l / (s * t)) - 1)))
        * (c1ql / (s ^ (4 : ℕ) * (Real.exp (c2l / (s * t)) - 1))) := by
  unfold dplnckqlElem
  rw [mul_comm t s]

/-- Flat grid of an evaluator over a singleton temperature. -/
lemma ryFlat_temp_singleton (elem : ℝ → ℝ → ℝ) (specIn : List ℝ) (t : ℝ) :
    ryFlat elem specIn [t] = specIn.map fun s => elem s t := by
  simp [ryFlat]

/-- Flat grid of an evaluator over a singleton spectral input. -/
lemma ryFlat_spec_singleton (elem : ℝ → ℝ → ℝ) (s : ℝ) (tempIn : List ℝ) :
    ryFlat elem [s] tempIn = tempIn.map fun t => elem s t := by
  induction tempIn with
  | nil => rfl
  | cons t ts ih => simp [ryFlat] at ih ⊢; exact ih

/-- Cutting the flat grid into temperature rows recovers the nested grid. -/
lemma reshapeRows_ryFlat (elem : ℝ → ℝ → ℝ) (specIn : List ℝ) (tempIn : List ℝ) :
    reshapeRows tempIn.length specIn.length (ryFlat elem specIn tempIn)
      = tempIn.map fun t => specIn.map fun s => elem s t := by
  induction tempIn with
  | nil => rfl
  | cons t ts ih =>
    have hlen : (specIn.map fun s => elem s t).length = specIn.length := List.length_map _ _
    simp only [ryFlat, List.flatMap_cons, List.length_cons, reshapeRows, List.map_cons]
    rw [← hlen, List.take_left, List.drop_left]
    rw [hlen]
    exact congrArg _ ih

/-- Column-prepending a mapped list onto mapped columns builds mapped rows. -/
lemma zipWith_cons_map_map (l : List ℝ) (g : ℝ → ℝ) (h : ℝ → List ℝ) :
    List.zipWith (fun a col => a :: col) (l.map g) (l.map h) = l.map fun s => g s :: h s := by
  induction l with
  | nil => rfl
  | cons a as ih => simp [ih]

/-- Transposing the nested temperature-major grid gives the spectral-major grid. -/
lemma npT_outer (elem : ℝ → ℝ → ℝ) (specIn : List ℝ) (tempIn : List ℝ) (hne : tempIn ≠ []) :
    npT (tempIn.map fun t => specIn.map fun s => elem s t)
      = specIn.map fun s => tempIn.map fun t => elem s t := by
  induction tempIn with
  | nil => exact absurd rfl hne
  | cons t ts ih =>
    cases ts with
    | nil => simp [npT, List.map_map]
    | cons t2 ts2 =>
      have ih2 := ih (by simp)
      simp only [List.map_cons] at ih2 ⊢
      rw [npT, ih2, zipWith_cons_map_map]

/-- Scalar-scalar branch of the shared output contract. -/
lemma ryOutput_scalar_scalar (elem : ℝ → ℝ → ℝ) (s t : ℝ) :
    ryOutput elem [s] [t] = .scalar (elem s t) := rfl

/-- Vector-spectral, scalar-temperature branch of the shared output contract. -/
lemma ryOutput_vector_case (elem : ℝ → ℝ → ℝ) (specIn : List ℝ) (t : ℝ)
    (hN : specIn.length ≠ 1) :
    ryOutput elem specIn [t] = .vector (specIn.map fun s => elem s t) := by
  unfold ryOutput
  rw [if_neg (by simp [hN]), if_pos (by simp), ryFlat_temp_singleton]

/-- Scalar-spectral, vector-temperature branch: a one-row rank-2 result. -/
lemma ryOutput_one_row_case (elem : ℝ → ℝ → ℝ) (s : ℝ) (tempIn : List ℝ)
    (hM : tempIn.length ≠ 1) :
    ryOutput elem [s] tempIn = .matrix [tempIn.map fun t => elem s t] := by
  unfold ryOutput
  rw [if_neg (by simp [hM]), if_neg hM, if_pos (by simp)]
  have hflat := ryFlat_spec_singleton elem s tempIn
  rw [hflat]
  have hlen : (tempIn.map fun t => elem s t).length = tempIn.length := List.length_map _ _
  simp only [List.length_singleton, reshapeRows]
  rw [← hlen, List.take_length]

/-- Vector-vector branch: reshape then transpose puts spectral on axis 0. -/
lemma ryOutput_matrix_case (elem : ℝ → ℝ → ℝ) (specIn tempIn : List ℝ)
    (hN : specIn.length ≠ 1) (hM : tempIn.length ≠ 1) (hMne : tempIn ≠ []) :
    ryOutput elem specIn tempIn
      = .matrix (specIn.map fun s => tempIn.map fun t => elem s t) := by
  unfold ryOutput
  rw [if_neg (by simp [hM]), if_neg hM, if_neg hN, reshapeRows_ryFlat, npT_outer _ _ _ hMne]

/-- The recursive trapezoid accumulation in closed summation form. -/
lemma trapz_eq_sum (y x : List ℝ) (hlen : y.length = x.length) :
    trapz y x = ∑ i ∈ Finset.range (x.length - 1),
      (x.getD (i + 1) 0 - x.getD i 0) * (y.getD i 0 + y.getD (i + 1) 0) / 2 := by
  induction y generalizing x with
  | nil =>
    cases x with
    | nil => simp [trapz]
    | cons a as => simp at hlen
  | cons y1 ys ih =>
    cases x with
    | nil => simp at hlen
    | cons x1 xs =>
      cases ys with
      | nil =>
        cases xs with
        | nil => simp [trapz]
        | cons b bs => simp at hlen
      | cons y2 ys2 =>
        cases xs with
        | nil => simp at hlen
        | cons x2 xs2 =>
          have hlen2 : (y2 :: ys2).length = (x2 :: xs2).length := by
            simpa using hlen
          rw [trapz, ih (x2 :: xs2) hlen2]
          have hn : (x1 :: x2 :: xs2).length - 1 = ((x2 :: xs2).length - 1) + 1 := by
            simp
          rw [hn, Finset.sum_range_succ']
          simp only [List.getD_cons_succ, List.getD_cons_zero]
          ring

/-- Pointwise product read through getD inside the common length range. -/
lemma zip_mul_getD (r c : List ℝ) (i : ℕ) (hr : i < r.length) (hc : i < c.length) :
    (List.zipWith (fun a b => a * b) r c).getD i 0 = r.getD i 0 * c.getD i 0 := by
  induction r generalizing c i with
  | nil => simp at hr
  | cons a as ih =>
    cases c with
    | nil => simp at hc
    | cons b bs =>
      cases i with
      | zero => rfl
      | succ j =>
        simp only [List.zipWith_cons_cons, List.getD_cons_succ]
        exact ih bs j (by simpa using hr) (by simpa using hc)

/-- Dividing a finite value by the finite zero of the FP model never gives a
finite result. -/
lemma div_fin_zero_not_finite (a : ℝ) :
    ((FP.fin a).div (FP.fin 0)).isFinite = false := by
  show (if (0 : ℝ) = 0 then (if a = 0 then FP.nan else if 0 < a then FP.pinf else FP.ninf)
      else roundFP (a / 0)).isFinite = false
  rw [if_pos rfl]
  split
  · rfl
  · split <;> rfl

/-- The trapezoidal integral of a pointwise product equals the
specification-side tristimulus integral when all arrays share the grid
length. -/
lemma trapz_zip_eq_specTristimulus (s r c : List ℝ)
    (hr : r.length = s.length) (hc : c.length = s.length) :
    trapz (List.zipWith (fun a b => a * b) r c) s = specTristimulus s r c := by
  have hzlen : (List.zipWith (fun a b => a * b) r c).length = s.length := by
    rw [List.length_zipWith, hr, hc, min_self]
  rw [trapz_eq_sum _ s hzlen]
  unfold specTristimulus
  apply Finset.sum_congr rfl
  intro i hi
  have hi2 : i < s.length - 1 := Finset.mem_range.mp hi
  rw [zip_mul_getD r c i (by omega) (by omega),
    zip_mul_getD r c (i + 1) (by omega) (by omega)]

/-- Unknown selector: the exitance dispatch dictionary has no entry. -/
lemma plancktype_eq_none {ty : List Char} (h1 : ty ≠ selEl) (h2 : ty ≠ selEf)
    (h3 : ty ≠ selEn) (h4 : ty ≠ selQl) (h5 : ty ≠ selQf) (h6 : ty ≠ selQn) :
    plancktype ty = none := by
  unfold plancktype
  rw [if_neg h1, if_neg h2, if_neg h3, if_neg h4, if_neg h5, if_neg h6]

/-- Unknown selector: the derivative dispatch dictionary has no entry. -/
lemma dplancktype_eq_none {ty : List Char} (h1 : ty ≠ selEl) (h2 : ty ≠ selEf)
    (h3 : ty ≠ selEn) (h4 : ty ≠ selQl) (h5 : ty ≠ selQf) (h6 : ty ≠ selQn) :
    dplancktype ty = none := by
  unfold dplancktype
  rw [if_neg h1, if_neg h2, if_neg h3, if_neg h4, if_neg h5, if_neg h6]

/-! ## Claim theorems. -/

/-- Claim C1: for each of the six exitance functions, every element of the
flat outer-product grid equals the guarded domain formula: exactly 0 where
the domain exponent reaches 709.7, and otherwise
`c1_variant * spectral^p / (exp x - 1)` with the spectral power in the
denominator (power 5, 4) for the wavelength forms and in the numerator
(power 3, 2) for the wavenumber and frequency forms.  The guard appears
inside the per-element map, hence is applied element-wise and not as a
global short-circuit.  (The functions return a reshape of this flat grid,
see the claim C2 theorem.) -/
theorem c1_exitance_guarded_formula :
    ∀ (specIn tempIn : List ℝ),
      (ryFlat planckelElem specIn tempIn
        = tempIn.flatMap fun t => specIn.map fun s =>
            if explimit ≤ c2l / (s * t) then 0
            else c1el / (s ^ (5 : ℕ) * (Real.exp (c2l / (s * t)) - 1))) ∧
      (ryFlat planckqlElem specIn tempIn
        = tempIn.flatMap fun t => specIn.map fun s =>
            if explimit ≤ c2l / (s * t) then 0
            else c1ql / (s ^ (4 : ℕ) * (Real.exp (c2l / (s * t)) - 1))) ∧
      (ryFlat planckenElem specIn tempIn
        = tempIn.flatMap fun t => specIn.map fun s =>
            if explimit ≤ c2n * (s / t) then 0
            else c1en * s ^ (3 : ℕ) / (Real.exp (c2n * (s / t)) - 1)) ∧
      (ryFlat planckqnElem specIn tempIn
        = tempIn.flatMap fun t => specIn.map fun s =>
            if explimit ≤ c2n * s / t then 0
            else c1qn * s ^ (2 : ℕ) / (Real.exp (c2n * s / t) - 1)) ∧
      (ryFlat planckefElem specIn tempIn
        = tempIn.flatMap fun t => specIn.map fun s =>
            if explimit ≤ c2f * s / t then 0
            else c1ef * s ^ (3 : ℕ) / (Real.exp (c2f * s / t) - 1)) ∧
      (ryFlat planckqfElem specIn tempIn
        = tempIn.flatMap fun t => specIn.map fun s =>
            if explimit ≤ c2f * s / t then 0
            else c1nf * s ^ (2 : ℕ) / (Real.exp (c2f * s / t) - 1)) := by
  intro specIn tempIn
  refine ⟨?_, ?_, ?_, ?_, ?_, ?_⟩
  · simp only [ryFlat, planckelElem_eq]
  · simp only [ryFlat, planckqlElem_eq]
  · simp only [ryFlat, planckenElem_eq]
  · simp only [ryFlat, planckqnElem_eq]
  · simp only [ryFlat, planckefElem_eq]
  · simp only [ryFlat, planckqfElem_eq]

/-- Claim C3: for each of the six derivative functions, every element of the
flat grid equals `factor * eta` with
`factor = x * exp x / (T * (exp x - 1))` and `eta` the unguarded exitance
formula of the domain.  The equalities hold for all real inputs, in
particular wherever the exponent reaches the overflow guard threshold: no
guard is applied anywhere in the derivative path. -/
theorem c3_derivative_factor_eta :
    ∀ (specIn tempIn : List ℝ),
      (ryFlat dplnckelElem specIn tempIn
        = tempIn.flatMap fun t => specIn.map fun s =>
            (c2l / (s * t) * Real.exp (c2l / (s * t))
                / (t * (Real.exp (c2l / (s * t)) - 1)))
              * (c1el / (s ^ (5 : ℕ) * (Real.exp (c2l / (s * t)) - 1)))) ∧
      (ryFlat dplnckqlElem specIn tempIn
        = tempIn.flatMap fun t => specIn.map fun s =>
            (c2l / (s * t) * Real.exp (c2l / (s * t))
                / (t * (Real.exp (c2l / (s * t)) - 1)))
              * (c1ql / (s ^ (4 : ℕ) * (Real.exp (c2l / (s * t)) - 1)))) ∧
      (ryFlat dplnckenElem specIn tempIn
        = tempIn.flatMap fun t => specIn.map fun s =>
            (c2n * s / t * Real.exp (c2n * s / t)
                / (t * (Real.exp (c2n * s / t) - 1)))
              * (c1en * s ^ (3 : ℕ) / (Real.exp (c2n * s / t) - 1))) ∧
      (ryFlat dplnckqnElem specIn tempIn
        = tempIn.flatMap fun t => specIn.map fun s =>
            (c2n * s / t * Real.exp (c2n * s / t)
                / (t * (Real.exp (c2n * s / t) - 1)))
              * (c1qn * s ^ (2 : ℕ) / (Real.exp (c2n * s / t) - 1))) ∧
      (ryFlat dplnckefElem specIn tempIn
        = tempIn.flatMap fun t => specIn.map fun s =>
            (c2f * s / t * Real.exp (c2f * s / t)
                / (t * (Real.exp (c2f * s / t) - 1)))
              * (c1ef * s ^ (3 : ℕ) / (Real.exp (c2f * s / t) - 1))) ∧
      (ryFlat dplnckqfElem specIn tempIn
        = tempIn.flatMap fun t => specIn.map fun s =>
            (c2f * s / t * Real.exp (c2f * s / t)
                / (t * (Real.exp (c2f * s / t) - 1)))
              * (c1nf * s ^ (2 : ℕ) / (Real.exp (c2f * s / t) - 1))) := by
  intro specIn tempIn
  refine ⟨?_, ?_, rfl, rfl, rfl, rfl⟩
  · simp only [ryFlat, dplnckelElem_eq]
  · simp only [ryFlat, dplnckqlElem_eq]

/-- Claim C4 (code bug): five of the six exitance evaluators only ever pass
a clamped argument to exp, so their exp argument is always below the 709.7
threshold; but plancken passes the raw exponent (the clamped `exP2` on
line 311 of src/ryplanck.py is computed and then unused), so at wavenumber
100000 with temperature 1 its exp argument is about 143878, far above the
threshold, even though the `numpy.where` guard still forces the returned
element to 0. -/
theorem c4_exp_argument_clamping :
    (∀ s t : ℝ, planckelExpArg s t < explimit) ∧
    (∀ s t : ℝ, planckefExpArg s t < explimit) ∧
    (∀ s t : ℝ, planckqlExpArg s t < explimit) ∧
    (∀ s t : ℝ, planckqfExpArg s t < explimit) ∧
    (∀ s t : ℝ, planckqnExpArg s t < explimit) ∧
    explimit ≤ planckenExpArg 100000 1 ∧
    planckenElem 100000 1 = 0 := by
  have hnum : explimit ≤ c2n * ((100000 : ℝ) / 1) := by
    unfold explimit c2n c2m hconst cconst kconst
    norm_num
  refine ⟨?_, ?_, ?_, ?_, ?_, hnum, ?_⟩
  · intro s t
    unfold planckelExpArg
    split
    · assumption
    · unfold explimit; norm_num
  · intro s t
    unfold planckefExpArg
    split
    · assumption
    · unfold explimit; norm_num
  · intro s t
    unfold planckqlExpArg
    split
    · assumption
    · unfold explimit; norm_num
  · intro s t
    unfold planckqfExpArg
    split
    · assumption
    · unfold explimit; norm_num
  · intro s t
    unfold planckqnExpArg
    split
    · assumption
    · unfold explimit; norm_num
  · rw [planckenElem_eq, if_pos hnum]

/-- Claim C6: for each of the six selector tokens, the generic dispatchers
planck and dplanck return exactly the value of the corresponding direct
exitance and derivative functions applied to the same (coerced) inputs. -/
theorem c6_dispatch_equivalence :
    ∀ (spectral : SpecArg) (temperature : List ℝ),
      planck spectral temperature selEl = .ok (planckel spectral.atleast1d temperature) ∧
      planck spectral temperature selEf = .ok (planckef spectral.atleast1d temperature) ∧
      planck spectral temperature selEn = .ok (plancken spectral.atleast1d temperature) ∧
      planck spectral temperature selQl = .ok (planckql spectral.atleast1d temperature) ∧
      planck spectral temperature selQf = .ok (planckqf spectral.atleast1d temperature) ∧
      planck spectral temperature selQn = .ok (planckqn spectral.atleast1d temperature) ∧
      dplanck spectral temperature selEl = .ok (dplnckel spectral.atleast1d temperature) ∧
      dplanck spectral temperature selEf = .ok (dplnckef spectral.atleast1d temperature) ∧
      dplanck spectral temperature selEn = .ok (dplncken spectral.atleast1d temperature) ∧
      dplanck spectral temperature selQl = .ok (dplnckql spectral.atleast1d temperature) ∧
      dplanck spectral temperature selQf = .ok (dplnckqf spectral.atleast1d temperature) ∧
      dplanck spectral temperature selQn = .ok (dplnckqn spectral.atleast1d temperature) := by
  intro spectral temperature
  exact ⟨rfl, rfl, rfl, rfl, rfl, rfl, rfl, rfl, rfl, rfl, rfl, rfl⟩

/-- Claim C7: stefanboltzman returns `sigmae * T^4` for the radiant selector,
`sigmaq * T^3` for the photon-rate selector, and the sentinel -1 for every
other selector; the model is a total function, no exception path exists. -/
theorem c7_stefanboltzman_cases :
    ∀ (temperature : ℝ) (ty : List Char),
      stefanboltzman temperature ['e'] = sigmae * temperature ^ (4 : ℕ) ∧
      stefanboltzman temperature ['q'] = sigmaq * temperature ^ (3 : ℕ) ∧
      (ty ≠ ['e'] → ty ≠ ['q'] → stefanboltzman temperature ty = -1) := by
  intro temperature ty
  refine ⟨rfl, rfl, fun h1 h2 => ?_⟩
  unfold stefanboltzman
  rw [if_neg h1, if_neg h2]

/-- Witness for claim C7 at the concrete unknown selector x and T = 2. -/
theorem c7_stefanboltzman_witness :
    ((['x'] : List Char) ≠ ['e']) ∧ ((['x'] : List Char) ≠ ['q']) ∧
      stefanboltzman 2 ['x'] = -1 :=
  ⟨by decide, by decide, (c7_stefanboltzman_cases 2 ['x']).2.2 (by decide) (by decide)⟩

/-- Claim C2 (amended): the shared reshape contract of all twelve evaluators
(each is `ryOutput` of its element function).  Both inputs of length 1 give
a bare scalar; spectral of length N with temperature of length 1 gives a
rank-1 vector of length N; spectral of length 1 with temperature of length
M gives a rank-2 one-row array of shape (1, M), not a rank-1 vector; both
multi-valued give a rank-2 array of shape (N, M) with the spectral variable
along axis 0, obtained by reshaping the flat grid to (M, N) and
transposing. -/
theorem c2_output_shape_contract (elem : ℝ → ℝ → ℝ) :
    (∀ s t : ℝ, ryOutput elem [s] [t] = RyResult.scalar (elem s t)) ∧
    (∀ (specIn : List ℝ) (t : ℝ), specIn.length ≠ 1 →
      ryOutput elem specIn [t] = RyResult.vector (specIn.map fun s => elem s t)) ∧
    (∀ (s : ℝ) (tempIn : List ℝ), tempIn.length ≠ 1 →
      ryOutput elem [s] tempIn = RyResult.matrix [tempIn.map fun t => elem s t]) ∧
    (∀ (specIn tempIn : List ℝ), tempIn ≠ [] →
      specIn.length ≠ 1 → tempIn.length ≠ 1 →
      ryOutput elem specIn tempIn
        = RyResult.matrix (specIn.map fun s => tempIn.map fun t => elem s t)) :=
  ⟨fun s t => ryOutput_scalar_scalar elem s t,
   fun specIn t hN => ryOutput_vector_case elem specIn t hN,
   fun s tempIn hM => ryOutput_one_row_case elem s tempIn hM,
   fun specIn tempIn hne hN hM => ryOutput_matrix_case elem specIn tempIn hN hM hne⟩

/-- Counterexample to claim C2 as stated: with a scalar wavelength and a
temperature vector of length 2, planckel returns a rank-2 array of shape
(1, 2), not a rank-1 vector of length 2. -/
theorem c2_scalar_vector_counterexample :
    RyResult.rank (planckel [1] [300, 400]) = 2 ∧
    planckel [1] [300, 400] = RyResult.matrix [[planckelElem 1 300, planckelElem 1 400]] :=
  ⟨rfl, rfl⟩

/-- Witness for claim C2 at the element function of planckel on concrete
inputs exercising all four branches of the contract. -/
theorem c2_shape_witness :
    ryOutput planckelElem [3] [500] = RyResult.scalar (planckelElem 3 500) ∧
    ryOutput planckelElem [1, 2] [500]
      = RyResult.vector [planckelElem 1 500, planckelElem 2 500] ∧
    ryOutput planckelElem [3] [300, 400]
      = RyResult.matrix [[planckelElem 3 300, planckelElem 3 400]] ∧
    ryOutput planckelElem [1, 2] [300, 400]
      = RyResult.matrix [[planckelElem 1 300, planckelElem 1 400],
          [planckelElem 2 300, planckelElem 2 400]] := by
  have h := c2_output_shape_contract planckelElem
  refine ⟨h.1 3 500, ?_, ?_, ?_⟩
  · have h2 := h.2.1 [1, 2] 500 (by simp)
    simpa using h2
  · have h2 := h.2.2.1 3 [300, 400] (by simp)
    simpa using h2
  · have h2 := h.2.2.2 [1, 2] [300, 400] (by simp) (by simp) (by simp)
    simpa using h2

/-- Claim C5 (amended): for a numpy-array spectral input and any selector
that is none of the six tokens, planck and dplanck return the -1 sentinel
vector of the spectral length and raise nothing; for a scalar (shape-less)
spectral input the sentinel branch instead raises AttributeError, because
it evaluates `numpy.ones(spectral.shape)`. -/
theorem c5_unknown_selector_sentinel :
    ∀ (l temperature : List ℝ) (v : ℝ) (ty : List Char),
      ty ≠ selEl → ty ≠ selEf → ty ≠ selEn → ty ≠ selQl → ty ≠ selQf → ty ≠ selQn →
      planck (SpecArg.arr l) temperature ty
          = PyResult.ok (RyResult.vector (List.replicate l.length (-1))) ∧
      dplanck (SpecArg.arr l) temperature ty
          = PyResult.ok (RyResult.vector (List.replicate l.length (-1))) ∧
      planck (SpecArg.scalar v) temperature ty = PyResult.attrError ∧
      dplanck (SpecArg.scalar v) temperature ty = PyResult.attrError := by
  intro l temperature v ty h1 h2 h3 h4 h5 h6
  have hp := plancktype_eq_none h1 h2 h3 h4 h5 h6
  have hd := dplancktype_eq_none h1 h2 h3 h4 h5 h6
  unfold planck dplanck
  rw [hp, hd]
  exact ⟨rfl, rfl, rfl, rfl⟩

/-- Counterexample to claim C5 as stated: a scalar spectral input (accepted
by every direct evaluator) together with the unknown selector zz makes
planck and dplanck raise AttributeError instead of returning a sentinel. -/
theorem c5_scalar_attrerror_counterexample :
    planck (SpecArg.scalar 1) [300] ['z', 'z'] = PyResult.attrError ∧
    dplanck (SpecArg.scalar 1) [300] ['z', 'z'] = PyResult.attrError :=
  ⟨rfl, rfl⟩

/-- Witness for claim C5 at the unknown selector zz with an array spectral
input of length 2 and a scalar spectral input. -/
theorem c5_sentinel_witness :
    ((['z', 'z'] : List Char) ≠ selEl) ∧
    planck (SpecArg.arr [1, 2]) [300] ['z', 'z']
      = PyResult.ok (RyResult.vector (List.replicate 2 (-1))) ∧
    planck (SpecArg.scalar 1) [300] ['z', 'z'] = PyResult.attrError := by
  have h := c5_unknown_selector_sentinel [1, 2] [300] 1 ['z', 'z']
    (by decide) (by decide) (by decide) (by decide) (by decide) (by decide)
  exact ⟨by decide, h.1, h.2.2.1⟩

/-- Claim C8: for tristimulus inputs sampled on a common spectral grid,
chromaticityforSpectralL returns the triple
(X/(X+Y+Z), Y/(X+Y+Z), Y) with X, Y, Z the trapezoidal tristimulus
integrals; the third component is the unnormalized Y integral; and when
X+Y+Z = 0 the first two components are NaN or infinite (never finite), with
no exception raised. -/
theorem c8_chromaticity_triple :
    ∀ (spectral radiance xbar ybar zbar : List ℝ),
      radiance.length = spectral.length → xbar.length = spectral.length →
      ybar.length = spectral.length → zbar.length = spectral.length →
      (chromaticityforSpectralL spectral radiance xbar ybar zbar
        = ((FP.fin (specTristimulus spectral radiance xbar)).div
            (FP.fin (specTristimulus spectral radiance xbar
              + specTristimulus spectral radiance ybar
              + specTristimulus spectral radiance zbar)),
          (FP.fin (specTristimulus spectral radiance ybar)).div
            (FP.fin (specTristimulus spectral radiance xbar
              + specTristimulus spectral radiance ybar
              + specTristimulus spectral radiance zbar)),
          FP.fin (specTristimulus spectral radiance ybar))) ∧
      (specTristimulus spectral radiance xbar + specTristimulus spectral radiance ybar
          + specTristimulus spectral radiance zbar = 0 →
        (chromaticityforSpectralL spectral radiance xbar ybar zbar).1.isFinite = false ∧
        (chromaticityforSpectralL spectral radiance xbar ybar zbar).2.1.isFinite = false) := by
  intro spectral radiance xbar ybar zbar hr hx hy hz
  have hX := trapz_zip_eq_specTristimulus spectral radiance xbar hr hx
  have hY := trapz_zip_eq_specTristimulus spectral radiance ybar hr hy
  have hZ := trapz_zip_eq_specTristimulus spectral radiance zbar hr hz
  have heq : chromaticityforSpectralL spectral radiance xbar ybar zbar
      = ((FP.fin (specTristimulus spectral radiance xbar)).div
          (FP.fin (specTristimulus spectral radiance xbar
            + specTristimulus spectral radiance ybar
            + specTristimulus spectral radiance zbar)),
        (FP.fin (specTristimulus spectral radiance ybar)).div
          (FP.fin (specTristimulus spectral radiance xbar
            + specTristimulus spectral radiance ybar
            + specTristimulus spectral radiance zbar)),
        FP.fin (specTristimulus spectral radiance ybar)) := by
    unfold chromaticityforSpectralL
    rw [hX, hY, hZ]
  refine ⟨heq, fun h0 => ?_⟩
  rw [heq]
  constructor
  · show ((FP.fin _).div (FP.fin _)).isFinite = false
    rw [h0]
    exact div_fin_zero_not_finite _
  · show ((FP.fin _).div (FP.fin _)).isFinite = false
    rw [h0]
    exact div_fin_zero_not_finite _

/-- Witness for claim C8 on a concrete two-sample grid. -/
theorem c8_chromaticity_witness :
    (([2, 3] : List ℝ).length = ([0, 1] : List ℝ).length) ∧
    chromaticityforSpectralL [0, 1] [2, 3] [1, 1] [1, 1] [1, 1]
      = ((FP.fin (specTristimulus [0, 1] [2, 3] [1, 1])).div
          (FP.fin (specTristimulus [0, 1] [2, 3] [1, 1]
            + specTristimulus [0, 1] [2, 3] [1, 1]
            + specTristimulus [0, 1] [2, 3] [1, 1])),
        (FP.fin (specTristimulus [0, 1] [2, 3] [1, 1])).div
          (FP.fin (specTristimulus [0, 1] [2, 3] [1, 1]
            + specTristimulus [0, 1] [2, 3] [1, 1]
            + specTristimulus [0, 1] [2, 3] [1, 1])),
        FP.fin (specTristimulus [0, 1] [2, 3] [1, 1])) := by
  refine ⟨by simp, ?_⟩
  exact (c8_chromaticity_triple [0, 1] [2, 3] [1, 1] [1, 1] [1, 1]
    (by simp) (by simp) (by simp) (by simp)).1

/-- Counterexample to claim C9 as stated: the table value sigmae is not
`pi^4 k^4 / (15 h^3 c^2)` — that expression is smaller than sigmae by a
factor of about 2 pi (the Stefan-Boltzmann formula has `2 pi^5`, not
`pi^4`). -/
theorem c9_sigmae_formula_counterexample :
    sigmae ≠ Real.pi ^ (4 : ℕ) * kconst ^ (4 : ℕ)
      / (15 * hconst ^ (3 : ℕ) * cconst ^ (2 : ℕ)) := by
  have hpos : (0 : ℝ) < 15 * hconst ^ (3 : ℕ) * cconst ^ (2 : ℕ) := by
    unfold hconst cconst
    norm_num
  have hpi : Real.pi ^ (4 : ℕ) < (3.15 : ℝ) ^ (4 : ℕ) :=
    pow_lt_pow_left Real.pi_lt_d2 (le_of_lt Real.pi_pos) (by norm_num)
  have hk : (0 : ℝ) < kconst ^ (4 : ℕ) := by unfold kconst; norm_num
  have h1 : Real.pi ^ (4 : ℕ) * kconst ^ (4 : ℕ) < (3.15 : ℝ) ^ (4 : ℕ) * kconst ^ (4 : ℕ) :=
    mul_lt_mul_of_pos_right hpi hk
  have h2 : (3.15 : ℝ) ^ (4 : ℕ) * kconst ^ (4 : ℕ)
      < sigmae * (15 * hconst ^ (3 : ℕ) * cconst ^ (2 : ℕ)) := by
    unfold sigmae kconst hconst cconst
    norm_num
  have h3 : Real.pi ^ (4 : ℕ) * kconst ^ (4 : ℕ)
      / (15 * hconst ^ (3 : ℕ) * cconst ^ (2 : ℕ)) < sigmae := by
    rw [div_lt_iff hpos]
    linarith
  exact ne_of_gt h3

/-- Claim C9 (amended): sigmae is the scipy CODATA literal 5.670373e-8 and
agrees with the true Stefan-Boltzmann expression `2 pi^5 k^4 / (15 h^3 c^2)`
to within 1e-13 absolute, while sigmaq is computed exactly as
`4 pi zeta3 k^3 / (h^3 c^2)` with the stored zeta(3) literal. -/
theorem c9_sigma_constants :
    |sigmae - 2 * Real.pi ^ (5 : ℕ) * kconst ^ (4 : ℕ)
        / (15 * hconst ^ (3 : ℕ) * cconst ^ (2 : ℕ))| < 1e-13 ∧
    sigmaq = 4 * Real.pi * zeta3 * kconst ^ (3 : ℕ)
        / (hconst ^ (3 : ℕ) * cconst ^ (2 : ℕ)) := by
  refine ⟨?_, rfl⟩
  have hpos : (0 : ℝ) < 15 * hconst ^ (3 : ℕ) * cconst ^ (2 : ℕ) := by
    unfold hconst cconst
    norm_num
  have hk : (0 : ℝ) < kconst ^ (4 : ℕ) := by unfold kconst; norm_num
  have hlo : (3.14159265358979323846 : ℝ) ^ (5 : ℕ) < Real.pi ^ (5 : ℕ) :=
    pow_lt_pow_left Real.pi_gt_d20 (by norm_num) (by norm_num)
  have hhi : Real.pi ^ (5 : ℕ) < (3.14159265358979323847 : ℝ) ^ (5 : ℕ) :=
    pow_lt_pow_left Real.pi_lt_d20 (le_of_lt Real.pi_pos) (by norm_num)
  have hlo2 : 2 * (3.14159265358979323846 : ℝ) ^ (5 : ℕ) * kconst ^ (4 : ℕ)
      / (15 * hconst ^ (3 : ℕ) * cconst ^ (2 : ℕ))
      < 2 * Real.pi ^ (5 : ℕ) * kconst ^ (4 : ℕ)
      / (15 * hconst ^ (3 : ℕ) * cconst ^ (2 : ℕ)) := by
    apply (div_lt_div_right hpos).mpr
    nlinarith [hlo, hk]
  have hhi2 : 2 * Real.pi ^ (5 : ℕ) * kconst ^ (4 : ℕ)
      / (15 * hconst ^ (3 : ℕ) * cconst ^ (2 : ℕ))
      < 2 * (3.14159265358979323847 : ℝ) ^ (5 : ℕ) * kconst ^ (4 : ℕ)
      / (15 * hconst ^ (3 : ℕ) * cconst ^ (2 : ℕ)) := by
    apply (div_lt_div_right hpos).mpr
    nlinarith [hhi, hk]
  have hnum_lo : sigmae - 1e-13
      < 2 * (3.14159265358979323846 : ℝ) ^ (5 : ℕ) * kconst ^ (4 : ℕ)
      / (15 * hconst ^ (3 : ℕ) * cconst ^ (2 : ℕ)) := by
    unfold sigmae kconst hconst cconst
    norm_num
  have hnum_hi : 2 * (3.14159265358979323847 : ℝ) ^ (5 : ℕ) * kconst ^ (4 : ℕ)
      / (15 * hconst ^ (3 : ℕ) * cconst ^ (2 : ℕ)) < sigmae + 1e-13 := by
    unfold sigmae kconst hconst cconst
    norm_num
  rw [abs_sub_lt_iff]
  constructor <;> linarith

/-- Claim C10: wherever the domain exponent reaches the 709.7 guard
threshold on strictly positive inputs, every derivative element in the FP
model is non-finite (NaN or infinite, never a finite value, and in
particular not 0) — the factor numerator `x * exp x` overflows and the
infinity then propagates through the remaining divisions and products —
while the matching exitance element is exactly 0.  The model is total, so no
exception is raised. -/
theorem c10_derivative_overflow_nonfinite :
    ∀ s t : ℝ, 0 < s → 0 < t →
      (explimit ≤ c2l / (s * t) →
        (dplnckelFP s t).isFinite = false ∧ (dplnckqlFP s t).isFinite = false ∧
        planckelElem s t = 0 ∧ planckqlElem s t = 0) ∧
      (explimit ≤ c2n * s / t →
        (dplnckenFP s t).isFinite = false ∧ (dplnckqnFP s t).isFinite = false ∧
        planckenElem s t = 0 ∧ planckqnElem s t = 0) ∧
      (explimit ≤ c2f * s / t →
        (dplnckefFP s t).isFinite = false ∧ (dplnckqfFP s t).isFinite = false ∧
        planckefElem s t = 0 ∧ planckqfElem s t = 0) := by
  intro s t hs ht
  have h2lim : (2 : ℝ) ≤ explimit := by unfold explimit; norm_num
  refine ⟨fun hx => ?_, fun hx => ?_, fun hx => ?_⟩
  · have hx2 : (2 : ℝ) ≤ c2l / (s * t) := le_trans h2lim hx
    have hxc1 : (2 : ℝ) ≤ c1el * (c2l / (s * t)) := by
      have h0 : (0 : ℝ) ≤ c2l / (s * t) := by linarith
      have h1 := le_mul_of_one_le_left h0 one_le_c1el
      linarith
    have hnel : (FP.fin (c1el * (c2l / (s * t)))).mul (fexp (c2l / (s * t))) = FP.pinf :=
      fin_mul_fexp_pinf hxc1 hx
    have hnql : (FP.fin (c2l / (s * t))).mul (fexp (c2l / (s * t))) = FP.pinf :=
      fin_mul_fexp_pinf hx2 hx
    refine ⟨?_, ?_, ?_, ?_⟩
    · show ((((FP.fin (c1el * (c2l / (s * t)))).mul
          (fexp (c2l / (s * t)))).div _).div _).isFinite = false
      apply div_not_finite
      apply div_not_finite
      rw [hnel]
      rfl
    · show ((((FP.fin (c2l / (s * t))).mul
          (fexp (c2l / (s * t)))).div _).mul _).isFinite = false
      apply mul_not_finite
      apply div_not_finite
      rw [hnql]
      rfl
    · rw [planckelElem_eq, if_pos hx]
    · rw [planckqlElem_eq, if_pos hx]
  · have hx2 : (2 : ℝ) ≤ c2n * s / t := le_trans h2lim hx
    have hxm : explimit ≤ c2n * (s / t) := by rw [← mul_div_assoc]; exact hx
    have hnum : (FP.fin (c2n * s / t)).mul (fexp (c2n * s / t)) = FP.pinf :=
      fin_mul_fexp_pinf hx2 hx
    refine ⟨?_, ?_, ?_, ?_⟩
    · show ((((FP.fin (c2n * s / t)).mul
          (fexp (c2n * s / t))).div _).mul _).isFinite = false
      apply mul_not_finite
      apply div_not_finite
      rw [hnum]
      rfl
    · show ((((FP.fin (c2n * s / t)).mul
          (fexp (c2n * s / t))).div _).mul _).isFinite = false
      apply mul_not_finite
      apply div_not_finite
      rw [hnum]
      rfl
    · rw [planckenElem_eq, if_pos hxm]
    · rw [planckqnElem_eq, if_pos hx]
  · have hx2 : (2 : ℝ) ≤ c2f * s / t := le_trans h2lim hx
    have hnum : (FP.fin (c2f * s / t)).mul (fexp (c2f * s / t)) = FP.pinf :=
      fin_mul_fexp_pinf hx2 hx
    refine ⟨?_, ?_, ?_, ?_⟩
    · show ((((FP.fin (c2f * s / t)).mul
          (fexp (c2f * s / t))).div _).mul _).isFinite = false
      apply mul_not_finite
      apply div_not_finite
      rw [hnum]
      rfl
    · show ((((FP.fin (c2f * s / t)).mul
          (fexp (c2f * s / t))).div _).mul _).isFinite = false
      apply mul_not_finite
      apply div_not_finite
      rw [hnum]
      rfl
    · rw [planckefElem_eq, if_pos hx]
    · rw [planckqfElem_eq, if_pos hx]

/-- Witness for claim C10 at concrete overflow-region inputs for each of the
three spectral domains (wavelength 0.1 micrometre at 1 K, wavenumber 1e6 at
1 K, frequency 1e16 Hz at 1 K). -/
theorem c10_overflow_witness :
    ((0 : ℝ) < 0.1 ∧ (0 : ℝ) < 1 ∧ explimit ≤ c2l / (0.1 * 1) ∧
      (dplnckelFP 0.1 1).isFinite = false ∧ planckelElem 0.1 1 = 0) ∧
    (explimit ≤ c2n * 1000000 / 1 ∧
      (dplnckenFP 1000000 1).isFinite = false ∧ planckenElem 1000000 1 = 0) ∧
    (explimit ≤ c2f * 1.0e16 / 1 ∧
      (dplnckefFP 1.0e16 1).isFinite = false ∧ planckefElem 1.0e16 1 = 0) := by
  have hl : explimit ≤ c2l / ((0.1 : ℝ) * 1) := by
    unfold explimit c2l c2m hconst cconst kconst
    norm_num
  have hn : explimit ≤ c2n * (1000000 : ℝ) / 1 := by
    unfold explimit c2n c2m hconst cconst kconst
    norm_num
  have hf : explimit ≤ c2f * (1.0e16 : ℝ) / 1 := by
    unfold explimit c2f hconst kconst
    norm_num
  have h1 := (c10_derivative_overflow_nonfinite 0.1 1 (by norm_num) (by norm_num)).1 hl
  have h2 := (c10_derivative_overflow_nonfinite 1000000 1 (by norm_num) (by norm_num)).2.1 hn
  have h3 := (c10_derivative_overflow_nonfinite 1.0e16 1 (by norm_num) (by norm_num)).2.2 hf
  exact ⟨⟨by norm_num, by norm_num, hl, h1.1, h1.2.2.1⟩,
    ⟨hn, h2.1, h2.2.2.1⟩, ⟨hf, h3.1, h3.2.2.1⟩⟩

end Pyradi

end
